import Mathlib

/-!
Verification of the filter-input synthesis utility and resolver glue of the
gql_ug GraphQL service (src/gql_ug/GraphTypeDefinitions).

The shallow embedding below models:
  * utils.py: the global dictionary inputTypeGQLMapper, the hardcoded
    StrFilter / DatetimeFilter / IntFilter / BoolFilter / UuidFilter input
    classes, and the createInputs decorator with its helpers
    createCustomInput / createOr / createAnd / createWhereOp;
  * the mutation handlers of groupGQLModel.py, groupTypeGQLModel.py,
    userGQLModel.py, membershipGQLModel.py, roleCategoryGQLModel.py;
  * BaseGQLModel.resolve_reference.

Python classes are modelled as descriptors carrying an identity (a fresh
numeric id standing for object identity) and their __name__; annotation
dictionaries are modelled as insertion-ordered association lists with
Python dict update semantics (an existing key keeps its position and gets
the new value).
-/

namespace GqlUg

/-- A Python type object as used by utils.py: a builtin scalar class
(identified by its __name__, e.g. "str", "int", "UUID"), a typing.Annotated
lazy alias (whose __name__ is "Annotated"), or a dynamically generated
strawberry input class, identified by a fresh allocation id (object
identity) together with its __name__. -/
inductive TypeObj where
  | scalar (name : String)
  | annotated (ref : String)
  | cls (id : Nat) (name : String)
deriving DecidableEq, Repr

/-- The value of a Python __name__ attribute of a type object. -/
def TypeObj.pyName : TypeObj → String
  | .scalar n => n
  | .annotated _ => "Annotated"
  | .cls _ n => n

/-- An annotation value appearing in a generated class __annotations__
dictionary: typing.Optional of a type object, typing.Optional of a
typing.List of a forward string reference, or typing.Optional of a
typing.List of a type object. -/
inductive Ann where
  | opt (t : TypeObj)
  | optListName (ref : String)
  | optList (t : TypeObj)
deriving DecidableEq, Repr

/-- Lookup in an insertion-ordered association list (Python dict get /
attribute read). -/
def alookup {κ ν : Type} [DecidableEq κ] : List (κ × ν) → κ → Option ν
  | [], _ => none
  | (k', v') :: rest, k => if k = k' then some v' else alookup rest k

/-- Python dict assignment d[k] = v: an existing key keeps its position and
receives the new value, a new key is appended at the end. -/
def dictInsert {κ ν : Type} [DecidableEq κ] : List (κ × ν) → κ → ν → List (κ × ν)
  | [], k, v => [(k, v)]
  | (k', v') :: rest, k, v =>
      if k = k' then (k', v) :: rest else (k', v') :: dictInsert rest k v

/-- Python dict merge as in the literal syntax with a double-star unpacking:
the second dictionary's entries are assigned into the first in order. -/
def dictUnion {κ ν : Type} [DecidableEq κ] (d1 d2 : List (κ × ν)) : List (κ × ν) :=
  d2.foldl (fun acc p => dictInsert acc p.1 p.2) d1

/-- The mutable module-level state of utils.py: the inputTypeGQLMapper
dictionary (keys are Python type objects), the module namespace entries
written through setattr on sys.modules (the named-type registry), the pool
of dynamically created classes (id paired with the __annotations__
dictionary, newest first), and the next fresh allocation id. -/
structure SynthState where
  mapper : List (TypeObj × TypeObj)
  registry : List (String × TypeObj)
  classes : List (Nat × List (String × Ann))
  nextId : Nat
deriving DecidableEq, Repr

/-- __annotations__ of the hardcoded StrFilter class (utils.py lines
134-144). -/
def strFilterAnns : List (String × Ann) :=
  [("_eq", .opt (.scalar "str")), ("_le", .opt (.scalar "str")),
   ("_lt", .opt (.scalar "str")), ("_ge", .opt (.scalar "str")),
   ("_gt", .opt (.scalar "str")), ("_like", .opt (.scalar "str")),
   ("_ilike", .opt (.scalar "str")), ("_startswith", .opt (.scalar "str")),
   ("_endswith", .opt (.scalar "str"))]

/-- __annotations__ of the hardcoded DatetimeFilter class (utils.py lines
146-152). -/
def datetimeFilterAnns : List (String × Ann) :=
  [("_eq", .opt (.scalar "datetime")), ("_le", .opt (.scalar "datetime")),
   ("_lt", .opt (.scalar "datetime")), ("_ge", .opt (.scalar "datetime")),
   ("_gt", .opt (.scalar "datetime"))]

/-- __annotations__ of the hardcoded IntFilter class (utils.py lines
154-161). -/
def intFilterAnns : List (String × Ann) :=
  [("_eq", .opt (.scalar "int")), ("_le", .opt (.scalar "int")),
   ("_lt", .opt (.scalar "int")), ("_ge", .opt (.scalar "int")),
   ("_gt", .opt (.scalar "int")), ("_in", .optList (.scalar "int"))]

/-- __annotations__ of the hardcoded BoolFilter class (utils.py lines
163-165). -/
def boolFilterAnns : List (String × Ann) :=
  [("_eq", .opt (.scalar "bool"))]

/-- __annotations__ of the hardcoded UuidFilter class (utils.py lines
169-172). -/
def uuidFilterAnns : List (String × Ann) :=
  [("_eq", .opt (.scalar "UUID")), ("_in", .optList (.scalar "UUID"))]

/-- State of the utils.py module after import: the five hardcoded filter
classes exist (ids 0..4 in definition order) and are registered in
inputTypeGQLMapper under the keys uuid.UUID, int, str, datetime.datetime
and bool, in that assignment order (utils.py lines 175-179); the module
namespace holds the five classes under their declared names. -/
def initState : SynthState :=
  { mapper := [ (TypeObj.scalar "UUID", TypeObj.cls 4 "UuidFilter"),
                (TypeObj.scalar "int", TypeObj.cls 2 "IntFilter"),
                (TypeObj.scalar "str", TypeObj.cls 0 "StrFilter"),
                (TypeObj.scalar "datetime", TypeObj.cls 1 "DatetimeFilter"),
                (TypeObj.scalar "bool", TypeObj.cls 3 "BoolFilter") ],
    registry := [ ("StrFilter", TypeObj.cls 0 "StrFilter"),
                  ("DatetimeFilter", TypeObj.cls 1 "DatetimeFilter"),
                  ("IntFilter", TypeObj.cls 2 "IntFilter"),
                  ("BoolFilter", TypeObj.cls 3 "BoolFilter"),
                  ("UuidFilter", TypeObj.cls 4 "UuidFilter") ],
    classes := [ (4, uuidFilterAnns), (3, boolFilterAnns), (2, intFilterAnns),
                 (1, datetimeFilterAnns), (0, strFilterAnns) ],
    nextId := 5 }

/-- The annotation dictionary built by createCustomInput for a freshly
generated operator type (utils.py lines 40-42): the five comparison slots,
each typing.Optional of the base type, in source order. -/
def fiveOps (baseType : TypeObj) : List (String × Ann) :=
  ["_eq", "_le", "_lt", "_ge", "_gt"].map (fun op => (op, Ann.opt baseType))

/-- createCustomInput (utils.py lines 29-49): look the base type up in
inputTypeGQLMapper and reuse the hit; on a miss return a typing.Annotated
alias unchanged (the __name__ comparison on line 34), and otherwise create
a fresh class carrying the five comparison slots. The field argument of the
source only feeds the description string and is omitted. The freshly
created class is not entered into inputTypeGQLMapper. -/
def createCustomInput (name : String) (baseType : TypeObj) (s : SynthState) :
    TypeObj × SynthState :=
  match alookup s.mapper baseType with
  | some result => (result, s)
  | none =>
      if baseType.pyName = "Annotated" then (baseType, s)
      else
        (TypeObj.cls s.nextId name,
         { s with classes := (s.nextId, fiveOps baseType) :: s.classes,
                  nextId := s.nextId + 1 })

/-- The list comprehension of utils.py lines 52-55: run createCustomInput
over all fields in order, with the operator-type name clsname_fieldname,
threading the module state. -/
def createAllInputs (clsname : String) :
    List (String × TypeObj) → SynthState → List TypeObj × SynthState
  | [], s => ([], s)
  | (fn, bt) :: rest, s =>
      let r1 := createCustomInput (clsname ++ "_" ++ fn) bt s
      let r2 := createAllInputs clsname rest r1.2
      (r1.1 :: r2.1, r2.2)

/-- The inputTypesDict comprehension (utils.py lines 58-61): a dict mapping
each field name to typing.Optional of its resolved input type. -/
def mkFieldDict (fieldNames : List String) (inputTypes : List TypeObj) :
    List (String × Ann) :=
  dictUnion [] ((List.zip fieldNames inputTypes).map (fun p => (p.1, Ann.opt p.2)))

/-- Annotations assembled by createOr (utils.py lines 67-78): the _and
combinator, typed as Optional List of the forward string reference to the
and-type, merged with the per-field dictionary. -/
def createOrAnns (andName : String) (d : List (String × Ann)) : List (String × Ann) :=
  dictUnion [("_and", Ann.optListName andName)] d

/-- Annotations assembled by createAnd (utils.py lines 84-95): the _or
combinator as a forward string reference to the or-type, merged with the
per-field dictionary. -/
def createAndAnns (orName : String) (d : List (String × Ann)) : List (String × Ann) :=
  dictUnion [("_or", Ann.optListName orName)] d

/-- Annotations assembled by createWhereOp (utils.py lines 101-114): _or and
_and combinators typed as Optional List of the already-realized or / and
classes, merged with the per-field dictionary. -/
def createWhereAnns (orOp andOp : TypeObj) (d : List (String × Ann)) :
    List (String × Ann) :=
  dictUnion [("_or", Ann.optList orOp), ("_and", Ann.optList andOp)] d

/-- Everything produced by one run of the createInputs decorator (utils.py
lines 12-130): the three generated classes with their annotation
dictionaries, the per-field input types, and the final module state. -/
structure SynthResult where
  whereOp : TypeObj
  andOp : TypeObj
  orOp : TypeObj
  whereAnns : List (String × Ann)
  andAnns : List (String × Ann)
  orAnns : List (String × Ann)
  inputTypes : List TypeObj
  state : SynthState
deriving DecidableEq, Repr

/-- The createInputs decorator body (utils.py lines 12-130). Names: the
where-type takes the decorated class name itself, the or- and and-types the
suffixed names (lines 19-21). Classes are realized in source order (or, and,
where); the registration loop (lines 121-124) setattr-writes whereOp, andOp,
orOp and every per-field input type into the module namespace under each
object's __name__; finally line 129 enters the where-type into
inputTypeGQLMapper keyed by itself. -/
def createInputsFull (clsname : String) (fields : List (String × TypeObj))
    (s0 : SynthState) : SynthResult :=
  let orName := clsname ++ "_or"
  let andName := clsname ++ "_and"
  let fieldNames := fields.map Prod.fst
  let res := createAllInputs clsname fields s0
  let inputTypes := res.1
  let s1 := res.2
  let inputTypesDict := mkFieldDict fieldNames inputTypes
  let orAnns := createOrAnns andName inputTypesDict
  let orOp := TypeObj.cls s1.nextId orName
  let s2 : SynthState :=
    { s1 with classes := (s1.nextId, orAnns) :: s1.classes, nextId := s1.nextId + 1 }
  let andAnns := createAndAnns orName inputTypesDict
  let andOp := TypeObj.cls s2.nextId andName
  let s3 : SynthState :=
    { s2 with classes := (s2.nextId, andAnns) :: s2.classes, nextId := s2.nextId + 1 }
  let whereAnns := createWhereAnns orOp andOp inputTypesDict
  let whereOp := TypeObj.cls s3.nextId clsname
  let s4 : SynthState :=
    { s3 with classes := (s3.nextId, whereAnns) :: s3.classes, nextId := s3.nextId + 1 }
  let reg1 := dictInsert s4.registry whereOp.pyName whereOp
  let reg2 := dictInsert reg1 andOp.pyName andOp
  let reg3 := dictInsert reg2 orOp.pyName orOp
  let reg4 := inputTypes.foldl (fun rg t => dictInsert rg t.pyName t) reg3
  let s5 : SynthState := { s4 with registry := reg4 }
  let s6 : SynthState := { s5 with mapper := dictInsert s5.mapper whereOp whereOp }
  { whereOp := whereOp, andOp := andOp, orOp := orOp,
    whereAnns := whereAnns, andAnns := andAnns, orAnns := orAnns,
    inputTypes := inputTypes, state := s6 }

/-- The value and state actually returned by the decorator: the where-type
class (utils.py line 130) and the mutated module state. -/
def createInputs (clsname : String) (fields : List (String × TypeObj))
    (s0 : SynthState) : TypeObj × SynthState :=
  let r := createInputsFull clsname fields s0
  (r.whereOp, r.state)

/-! ### Helper lemmas on association lists, strings and the synthesis state -/

theorem string_data_append (s t : String) : (s ++ t).data = s.data ++ t.data := by
  cases s; cases t; rfl

theorem string_ne_self_append (s t : String) (h : t ≠ "") : s ≠ s ++ t := by
  intro he
  have h1 : s.data = s.data ++ t.data := by
    conv_lhs => rw [he]
    exact string_data_append s t
  have h2 := congrArg List.length h1
  rw [List.length_append] at h2
  have h3 : t.data.length = 0 := by omega
  have hd : t.data = [] := List.length_eq_zero.mp h3
  exact h (String.ext (by rw [hd]))

theorem string_append_right_ne (s t u : String) (h : t ≠ u) : s ++ t ≠ s ++ u := by
  intro he
  apply h
  apply String.ext
  have hdata := congrArg String.data he
  rw [string_data_append, string_data_append] at hdata
  exact List.append_cancel_left hdata

theorem alookup_dictInsert {κ ν : Type} [DecidableEq κ] (d : List (κ × ν)) (k q : κ)
    (v : ν) :
    alookup (dictInsert d k v) q = if q = k then some v else alookup d q := by
  induction d with
  | nil => simp [dictInsert, alookup]
  | cons p rest ih =>
    obtain ⟨k', v'⟩ := p
    by_cases hkk : k = k'
    · subst hkk
      by_cases hq : q = k <;> simp [dictInsert, alookup, hq]
    · by_cases hq : q = k'
      · subst hq
        have hqk : ¬q = k := fun hc => hkk hc.symm
        simp [dictInsert, alookup, hkk, hqk]
      · simp [dictInsert, alookup, hkk, hq, ih]

theorem dictInsert_append {κ ν : Type} [DecidableEq κ] (d : List (κ × ν)) (k : κ)
    (v : ν) (h : k ∉ d.map Prod.fst) : dictInsert d k v = d ++ [(k, v)] := by
  induction d with
  | nil => rfl
  | cons p rest ih =>
    simp only [List.map_cons, List.mem_cons] at h
    push_neg at h
    simp [dictInsert, h.1, ih h.2]

theorem dictUnion_append {κ ν : Type} [DecidableEq κ] (d1 d2 : List (κ × ν))
    (hn : (d2.map Prod.fst).Nodup)
    (hd : ∀ k ∈ d2.map Prod.fst, k ∉ d1.map Prod.fst) :
    dictUnion d1 d2 = d1 ++ d2 := by
  induction d2 generalizing d1 with
  | nil => simp [dictUnion]
  | cons p rest ih =>
    obtain ⟨k, v⟩ := p
    simp only [List.map_cons, List.nodup_cons] at hn
    have hk : k ∉ d1.map Prod.fst := hd k (by simp)
    have step : dictInsert d1 k v = d1 ++ [(k, v)] := dictInsert_append _ _ _ hk
    have hrest : ∀ q ∈ rest.map Prod.fst, q ∉ (d1 ++ [(k, v)]).map Prod.fst := by
      intro q hq
      simp only [List.map_append, List.mem_append, List.map_cons, List.map_nil,
        List.mem_singleton, not_or]
      constructor
      · exact hd q (by simp [hq])
      · intro hqk
        exact hn.1 (hqk ▸ hq)
    have : dictUnion d1 ((k, v) :: rest) = dictUnion (dictInsert d1 k v) rest := rfl
    rw [this, step, ih _ hn.2 hrest, List.append_assoc]
    rfl

theorem mkFieldDict_pairs_fst (ns : List String) (ts : List TypeObj)
    (hl : ns.length ≤ ts.length) :
    ((List.zip ns ts).map (fun p => (p.1, Ann.opt p.2))).map Prod.fst = ns := by
  rw [List.map_map]
  have hcomp : (Prod.fst ∘ fun p : String × TypeObj => (p.1, Ann.opt p.2)) =
      Prod.fst := by
    funext p; rfl
  rw [hcomp, List.map_fst_zip _ _ hl]

theorem mkFieldDict_eq (ns : List String) (ts : List TypeObj) (hn : ns.Nodup)
    (hl : ns.length ≤ ts.length) :
    mkFieldDict ns ts = (List.zip ns ts).map (fun p => (p.1, Ann.opt p.2)) := by
  unfold mkFieldDict
  have := dictUnion_append ([] : List (String × Ann))
    ((List.zip ns ts).map (fun p => (p.1, Ann.opt p.2)))
    (by rw [mkFieldDict_pairs_fst ns ts hl]; exact hn)
    (by intro k _ hk; simp at hk)
  rw [this, List.nil_append]

theorem createAllInputs_length (clsname : String) (fields : List (String × TypeObj))
    (s : SynthState) :
    (createAllInputs clsname fields s).1.length = fields.length := by
  induction fields generalizing s with
  | nil => rfl
  | cons p rest ih =>
    obtain ⟨fn, bt⟩ := p
    simp [createAllInputs, ih]

theorem createCustomInput_registry (n : String) (bt : TypeObj) (s : SynthState) :
    ((createCustomInput n bt s).2).registry = s.registry := by
  rcases h : alookup s.mapper bt with _ | t
  · by_cases hA : bt.pyName = "Annotated" <;> simp [createCustomInput, h, hA]
  · simp [createCustomInput, h]

theorem createCustomInput_mapper (n : String) (bt : TypeObj) (s : SynthState) :
    ((createCustomInput n bt s).2).mapper = s.mapper := by
  rcases h : alookup s.mapper bt with _ | t
  · by_cases hA : bt.pyName = "Annotated" <;> simp [createCustomInput, h, hA]
  · simp [createCustomInput, h]

theorem createCustomInput_nextId (n : String) (bt : TypeObj) (s : SynthState) :
    s.nextId ≤ ((createCustomInput n bt s).2).nextId := by
  rcases h : alookup s.mapper bt with _ | t
  · by_cases hA : bt.pyName = "Annotated" <;> simp [createCustomInput, h, hA]
  · simp [createCustomInput, h]

theorem createAllInputs_registry (clsname : String) (fields : List (String × TypeObj))
    (s : SynthState) :
    ((createAllInputs clsname fields s).2).registry = s.registry := by
  induction fields generalizing s with
  | nil => rfl
  | cons p rest ih =>
    obtain ⟨fn, bt⟩ := p
    simp [createAllInputs, ih, createCustomInput_registry]

theorem createAllInputs_nextId (clsname : String) (fields : List (String × TypeObj))
    (s : SynthState) :
    s.nextId ≤ ((createAllInputs clsname fields s).2).nextId := by
  induction fields generalizing s with
  | nil => exact Nat.le_refl _
  | cons p rest ih =>
    obtain ⟨fn, bt⟩ := p
    calc s.nextId ≤ ((createCustomInput (clsname ++ "_" ++ fn) bt s).2).nextId :=
          createCustomInput_nextId _ _ _
      _ ≤ _ := ih _

theorem alookup_foldl_ne (ts : List TypeObj) (d : List (String × TypeObj))
    (n : String) (h : ∀ t ∈ ts, t.pyName ≠ n) :
    alookup (ts.foldl (fun rg t => dictInsert rg t.pyName t) d) n = alookup d n := by
  induction ts generalizing d with
  | nil => rfl
  | cons t rest ih =>
    have hstep : alookup (dictInsert d t.pyName t) n = alookup d n := by
      rw [alookup_dictInsert]
      have : ¬n = t.pyName := fun hc => h t (by simp) hc.symm
      simp [this]
    simp only [List.foldl_cons]
    rw [ih _ (fun x hx => h x (by simp [hx])), hstep]

theorem alookup_mem {κ ν : Type} [DecidableEq κ] (d : List (κ × ν)) (k : κ) (v : ν)
    (h : alookup d k = some v) : (k, v) ∈ d := by
  induction d with
  | nil => simp [alookup] at h
  | cons p rest ih =>
    obtain ⟨k', v'⟩ := p
    by_cases hk : k = k'
    · subst hk
      simp [alookup] at h
      simp [h]
    · simp only [alookup, if_neg hk] at h
      simp [ih h]

/-! ### Projection equations for createInputsFull, all definitional -/

theorem createInputsFull_inputTypes (c : String) (f : List (String × TypeObj))
    (s : SynthState) :
    (createInputsFull c f s).inputTypes = (createAllInputs c f s).1 := rfl

theorem createInputsFull_orOp (c : String) (f : List (String × TypeObj))
    (s : SynthState) :
    (createInputsFull c f s).orOp =
      TypeObj.cls ((createAllInputs c f s).2).nextId (c ++ "_or") := rfl

theorem createInputsFull_andOp (c : String) (f : List (String × TypeObj))
    (s : SynthState) :
    (createInputsFull c f s).andOp =
      TypeObj.cls (((createAllInputs c f s).2).nextId + 1) (c ++ "_and") := rfl

theorem createInputsFull_whereOp (c : String) (f : List (String × TypeObj))
    (s : SynthState) :
    (createInputsFull c f s).whereOp =
      TypeObj.cls (((createAllInputs c f s).2).nextId + 2) c := rfl

theorem createInputsFull_orAnns (c : String) (f : List (String × TypeObj))
    (s : SynthState) :
    (createInputsFull c f s).orAnns =
      createOrAnns (c ++ "_and")
        (mkFieldDict (f.map Prod.fst) (createAllInputs c f s).1) := rfl

theorem createInputsFull_andAnns (c : String) (f : List (String × TypeObj))
    (s : SynthState) :
    (createInputsFull c f s).andAnns =
      createAndAnns (c ++ "_or")
        (mkFieldDict (f.map Prod.fst) (createAllInputs c f s).1) := rfl

theorem createInputsFull_whereAnns (c : String) (f : List (String × TypeObj))
    (s : SynthState) :
    (createInputsFull c f s).whereAnns =
      createWhereAnns (createInputsFull c f s).orOp (createInputsFull c f s).andOp
        (mkFieldDict (f.map Prod.fst) (createAllInputs c f s).1) := rfl

theorem createInputsFull_registry (c : String) (f : List (String × TypeObj))
    (s : SynthState) :
    (createInputsFull c f s).state.registry =
      (createAllInputs c f s).1.foldl (fun rg t => dictInsert rg t.pyName t)
        (dictInsert
          (dictInsert
            (dictInsert ((createAllInputs c f s).2).registry
              c (createInputsFull c f s).whereOp)
            (c ++ "_and") (createInputsFull c f s).andOp)
          (c ++ "_or") (createInputsFull c f s).orOp) := rfl

/-- Named-type registry lookup of the where-type name after one createInputs
run: provided no per-field input type shares the entity name, the entity
name maps to the freshly generated where-type. -/
theorem registryWhereLookup (c : String) (f : List (String × TypeObj)) (s : SynthState)
    (h : ∀ t ∈ (createInputsFull c f s).inputTypes, t.pyName ≠ c) :
    alookup (createInputsFull c f s).state.registry c =
      some (createInputsFull c f s).whereOp := by
  rw [createInputsFull_registry]
  rw [alookup_foldl_ne _ _ _ (fun t ht => h t (by rw [createInputsFull_inputTypes]; exact ht))]
  rw [alookup_dictInsert, if_neg (string_ne_self_append c "_or" (by decide))]
  rw [alookup_dictInsert, if_neg (string_ne_self_append c "_and" (by decide))]
  rw [alookup_dictInsert, if_pos rfl]

/-- Named-type registry lookup of the and-type name after one createInputs
run. -/
theorem registryAndLookup (c : String) (f : List (String × TypeObj)) (s : SynthState)
    (h : ∀ t ∈ (createInputsFull c f s).inputTypes, t.pyName ≠ c ++ "_and") :
    alookup (createInputsFull c f s).state.registry (c ++ "_and") =
      some (createInputsFull c f s).andOp := by
  rw [createInputsFull_registry]
  rw [alookup_foldl_ne _ _ _ (fun t ht => h t (by rw [createInputsFull_inputTypes]; exact ht))]
  rw [alookup_dictInsert, if_neg (string_append_right_ne c "_and" "_or" (by decide))]
  rw [alookup_dictInsert, if_pos rfl]

/-- Named-type registry lookup of the or-type name after one createInputs
run. -/
theorem registryOrLookup (c : String) (f : List (String × TypeObj)) (s : SynthState)
    (h : ∀ t ∈ (createInputsFull c f s).inputTypes, t.pyName ≠ c ++ "_or") :
    alookup (createInputsFull c f s).state.registry (c ++ "_or") =
      some (createInputsFull c f s).orOp := by
  rw [createInputsFull_registry]
  rw [alookup_foldl_ne _ _ _ (fun t ht => h t (by rw [createInputsFull_inputTypes]; exact ht))]
  rw [alookup_dictInsert, if_pos rfl]

/-- Boolean well-formedness of a registry value relative to the allocation
counter: any generated class stored in the registry was allocated earlier. -/
def regValOK (n : Nat) : TypeObj → Bool
  | .cls i _ => decide (i < n)
  | _ => true

/-- All registry values are well formed for the current allocation counter;
holds for the initial module state and is preserved by synthesis. -/
def regWF (s : SynthState) : Bool := s.registry.all (fun p => regValOK s.nextId p.2)

/-! ### Claims about the filter-input synthesis engine -/

/-- Claim C1, counterexample: the scalar kind float is requested by two
synthesize calls; the two operator types returned are distinct instances,
and after both calls the kind is still absent from inputTypeGQLMapper, so a
freshly constructed operator type is never registered in the cache. This
refutes the claim that a kind not yet present is registered so the next
request reuses it. -/
theorem C1_counterexample :
    (createInputsFull "EntityE" [("x", TypeObj.scalar "float")] initState).inputTypes ≠
      (createInputsFull "EntityF" [("y", TypeObj.scalar "float")]
        (createInputsFull "EntityE" [("x", TypeObj.scalar "float")] initState).state).inputTypes ∧
    alookup (createInputsFull "EntityF" [("y", TypeObj.scalar "float")]
        (createInputsFull "EntityE" [("x", TypeObj.scalar "float")] initState).state).state.mapper
      (TypeObj.scalar "float") = none := by decide

/-- Claim C1, amended: a scalar kind already present in inputTypeGQLMapper
is resolved to the identical registered operator-type instance on every
request; a scalar kind not yet present gets a freshly constructed operator
type that is NOT registered in the cache, so a second request for the same
kind constructs another, distinct instance. -/
theorem C1_amended (s : SynthState) (n1 n2 : String) (k : TypeObj) :
    (∀ t, alookup s.mapper k = some t →
      (createCustomInput n1 k s).1 = t ∧
      (createCustomInput n2 k ((createCustomInput n1 k s).2)).1 = t) ∧
    (∀ nm, k = TypeObj.scalar nm → nm ≠ "Annotated" →
      alookup s.mapper k = none →
      (createCustomInput n1 k s).1 ≠
        (createCustomInput n2 k ((createCustomInput n1 k s).2)).1) := by
  constructor
  · intro t ht
    have h1 : createCustomInput n1 k s = (t, s) := by simp [createCustomInput, ht]
    refine ⟨by rw [h1], ?_⟩
    rw [h1]
    simp [createCustomInput, ht]
  · intro nm hk hA hnone
    subst hk
    have e1 : createCustomInput n1 (TypeObj.scalar nm) s =
        (TypeObj.cls s.nextId n1,
         { s with classes := (s.nextId, fiveOps (TypeObj.scalar nm)) :: s.classes,
                  nextId := s.nextId + 1 }) := by
      simp [createCustomInput, hnone, TypeObj.pyName, hA]
    rw [e1]
    have e2 : createCustomInput n2 (TypeObj.scalar nm)
        ({ s with classes := (s.nextId, fiveOps (TypeObj.scalar nm)) :: s.classes,
                  nextId := s.nextId + 1 }) =
        (TypeObj.cls (s.nextId + 1) n2,
         { s with classes := (s.nextId + 1, fiveOps (TypeObj.scalar nm)) ::
                    (s.nextId, fiveOps (TypeObj.scalar nm)) :: s.classes,
                  nextId := s.nextId + 2 }) := by
      simp [createCustomInput, hnone, TypeObj.pyName, hA]
    rw [e2]
    simp only [ne_eq, TypeObj.cls.injEq, not_and]
    intro hi
    omega

/-- Claim C1, witness: with the initial module state, a cache hit for str
returns the registered StrFilter both times, and two requests for the
uncached kind float return distinct operator types. -/
theorem C1_amended_witness :
    (createCustomInput "A" (TypeObj.scalar "str") initState).1 =
      TypeObj.cls 0 "StrFilter" ∧
    (createCustomInput "EntityE_x" (TypeObj.scalar "float") initState).1 ≠
      (createCustomInput "EntityF_y" (TypeObj.scalar "float")
        ((createCustomInput "EntityE_x" (TypeObj.scalar "float") initState).2)).1 :=
  ⟨((C1_amended initState "A" "A" (TypeObj.scalar "str")).1
      (TypeObj.cls 0 "StrFilter") (by decide)).1,
   (C1_amended initState "EntityE_x" "EntityF_y" (TypeObj.scalar "float")).2
      "float" rfl (by decide) (by decide)⟩

/-- Claim C2, counterexample: UuidFilter is the registered operator type for
the unique-identifier kind, yet its operator slots are exactly _eq and _in;
it lacks _lt (and _le, _gt, _ge), refuting the claim that every generated
scalar filter type exposes at least the five comparison slots. -/
theorem C2_counterexample :
    alookup initState.mapper (TypeObj.scalar "UUID") =
      some (TypeObj.cls 4 "UuidFilter") ∧
    alookup initState.classes 4 = some uuidFilterAnns ∧
    uuidFilterAnns.map Prod.fst = ["_eq", "_in"] ∧
    ¬("_lt" ∈ uuidFilterAnns.map Prod.fst) := by decide

/-- Claim C2, amended: StrFilter exposes the five comparison slots plus
_like, _ilike, _startswith and _endswith; IntFilter the five plus _in;
DatetimeFilter exactly the five; UuidFilter only _eq and _in; BoolFilter
only _eq; and any dynamically generated operator type (for a kind with no
registered mapping) exposes exactly the five comparison slots. -/
theorem C2_amended (s : SynthState) (n nm : String)
    (h1 : alookup s.mapper (TypeObj.scalar nm) = none) (h2 : nm ≠ "Annotated") :
    strFilterAnns.map Prod.fst =
      ["_eq", "_le", "_lt", "_ge", "_gt", "_like", "_ilike", "_startswith",
       "_endswith"] ∧
    intFilterAnns.map Prod.fst = ["_eq", "_le", "_lt", "_ge", "_gt", "_in"] ∧
    datetimeFilterAnns.map Prod.fst = ["_eq", "_le", "_lt", "_ge", "_gt"] ∧
    uuidFilterAnns.map Prod.fst = ["_eq", "_in"] ∧
    boolFilterAnns.map Prod.fst = ["_eq"] ∧
    ((createCustomInput n (TypeObj.scalar nm) s).2).classes.head? =
      some (s.nextId, fiveOps (TypeObj.scalar nm)) ∧
    (fiveOps (TypeObj.scalar nm)).map Prod.fst =
      ["_eq", "_le", "_lt", "_ge", "_gt"] := by
  refine ⟨rfl, rfl, rfl, rfl, rfl, ?_, rfl⟩
  simp [createCustomInput, h1, TypeObj.pyName, h2]

/-- Claim C2, witness: instantiated at the initial module state and the
uncached kind float. -/
theorem C2_amended_witness :
    ((createCustomInput "EntityK_x" (TypeObj.scalar "float") initState).2).classes.head? =
      some (5, fiveOps (TypeObj.scalar "float")) :=
  (C2_amended initState "EntityK_x" "float" (by decide) (by decide)).2.2.2.2.2.1

/-- Claim C3: for an entity whose field names are distinct and avoid the
combinator names, the generated or-type exposes the _and combinator (an
optional list referencing the and-type by name) followed by exactly one
optional entry per declared field; the and-type exposes the _or combinator
followed by the same entries; the where-type exposes the _or and _and
combinators (optional lists of the realized or- and and-classes) followed
by the same entries, and nothing else. -/
theorem C3_holds (clsname : String) (fields : List (String × TypeObj))
    (s : SynthState) (hnd : (fields.map Prod.fst).Nodup)
    (ha : "_and" ∉ fields.map Prod.fst) (ho : "_or" ∉ fields.map Prod.fst) :
    (createInputsFull clsname fields s).orAnns =
      ("_and", Ann.optListName (clsname ++ "_and")) ::
        (List.zip (fields.map Prod.fst) (createInputsFull clsname fields s).inputTypes).map
          (fun p => (p.1, Ann.opt p.2)) ∧
    (createInputsFull clsname fields s).andAnns =
      ("_or", Ann.optListName (clsname ++ "_or")) ::
        (List.zip (fields.map Prod.fst) (createInputsFull clsname fields s).inputTypes).map
          (fun p => (p.1, Ann.opt p.2)) ∧
    (createInputsFull clsname fields s).whereAnns =
      ("_or", Ann.optList (createInputsFull clsname fields s).orOp) ::
        ("_and", Ann.optList (createInputsFull clsname fields s).andOp) ::
        (List.zip (fields.map Prod.fst) (createInputsFull clsname fields s).inputTypes).map
          (fun p => (p.1, Ann.opt p.2)) ∧
    (createInputsFull clsname fields s).orAnns.map Prod.fst =
      "_and" :: fields.map Prod.fst ∧
    (createInputsFull clsname fields s).andAnns.map Prod.fst =
      "_or" :: fields.map Prod.fst ∧
    (createInputsFull clsname fields s).whereAnns.map Prod.fst =
      "_or" :: "_and" :: fields.map Prod.fst := by
  have hlen : (fields.map Prod.fst).length ≤
      ((createAllInputs clsname fields s).1).length := by
    rw [createAllInputs_length, List.length_map]
  have hdict : mkFieldDict (fields.map Prod.fst) (createAllInputs clsname fields s).1 =
      (List.zip (fields.map Prod.fst) (createAllInputs clsname fields s).1).map
        (fun p => (p.1, Ann.opt p.2)) :=
    mkFieldDict_eq _ _ hnd hlen
  have hkeys : ((List.zip (fields.map Prod.fst) (createAllInputs clsname fields s).1).map
      (fun p => (p.1, Ann.opt p.2))).map Prod.fst = fields.map Prod.fst :=
    mkFieldDict_pairs_fst _ _ hlen
  have hknd : (((List.zip (fields.map Prod.fst) (createAllInputs clsname fields s).1).map
      (fun p => (p.1, Ann.opt p.2))).map Prod.fst).Nodup := by
    rw [hkeys]; exact hnd
  have hor : (createInputsFull clsname fields s).orAnns =
      ("_and", Ann.optListName (clsname ++ "_and")) ::
        (List.zip (fields.map Prod.fst) (createAllInputs clsname fields s).1).map
          (fun p => (p.1, Ann.opt p.2)) := by
    rw [createInputsFull_orAnns, hdict]
    unfold createOrAnns
    rw [dictUnion_append _ _ hknd]
    · rfl
    · intro q hq
      rw [hkeys] at hq
      simp only [List.map_cons, List.map_nil, List.mem_singleton]
      intro hqa
      exact ha (hqa ▸ hq)
  have hand : (createInputsFull clsname fields s).andAnns =
      ("_or", Ann.optListName (clsname ++ "_or")) ::
        (List.zip (fields.map Prod.fst) (createAllInputs clsname fields s).1).map
          (fun p => (p.1, Ann.opt p.2)) := by
    rw [createInputsFull_andAnns, hdict]
    unfold createAndAnns
    rw [dictUnion_append _ _ hknd]
    · rfl
    · intro q hq
      rw [hkeys] at hq
      simp only [List.map_cons, List.map_nil, List.mem_singleton]
      intro hqo
      exact ho (hqo ▸ hq)
  have hwhere : (createInputsFull clsname fields s).whereAnns =
      ("_or", Ann.optList (createInputsFull clsname fields s).orOp) ::
        ("_and", Ann.optList (createInputsFull clsname fields s).andOp) ::
        (List.zip (fields.map Prod.fst) (createAllInputs clsname fields s).1).map
          (fun p => (p.1, Ann.opt p.2)) := by
    rw [createInputsFull_whereAnns, hdict]
    unfold createWhereAnns
    rw [dictUnion_append _ _ hknd]
    · rfl
    · intro q hq
      rw [hkeys] at hq
      intro hmem
      simp only [List.map_cons, List.map_nil, List.mem_cons, List.not_mem_nil,
        or_false] at hmem
      rcases hmem with hqo | hqa
      · exact ho (hqo ▸ hq)
      · exact ha (hqa ▸ hq)
  rw [createInputsFull_inputTypes]
  refine ⟨hor, hand, hwhere, ?_, ?_, ?_⟩
  · rw [hor]; simp only [List.map_cons]; rw [hkeys]
  · rw [hand]; simp only [List.map_cons]; rw [hkeys]
  · rw [hwhere]; simp only [List.map_cons]; rw [hkeys]

/-- Claim C3, witness: the Group entity with fields name (str) and valid
(bool) yields a where-type exposing exactly _or, _and, name, valid. -/
theorem C3_witness :
    (createInputsFull "Group" [("name", TypeObj.scalar "str"),
      ("valid", TypeObj.scalar "bool")] initState).whereAnns.map Prod.fst =
      ["_or", "_and", "name", "valid"] :=
  (C3_holds "Group" [("name", TypeObj.scalar "str"), ("valid", TypeObj.scalar "bool")]
    initState (by decide) (by decide) (by decide)).2.2.2.2.2

/-- Claim C4: a field whose declared kind is a typing.Annotated lazy
reference (and, like every Annotated alias, absent from inputTypeGQLMapper)
is returned by createCustomInput unchanged, with no operator type created
and no state mutated; likewise a kind that the mapper maps to itself (the
directly imported where-type of another entity, registered by line 129) is
returned as-is. -/
theorem C4_holds (s : SynthState) (n ref : String) :
    (alookup s.mapper (TypeObj.annotated ref) = none →
      createCustomInput n (TypeObj.annotated ref) s = (TypeObj.annotated ref, s)) ∧
    (∀ k : TypeObj, alookup s.mapper k = some k →
      createCustomInput n k s = (k, s)) := by
  constructor
  · intro h
    simp [createCustomInput, h, TypeObj.pyName]
  · intro k h
    simp [createCustomInput, h]

/-- Claim C4, witness: the lazy MembershipInputWhereFilter reference on the
Group filter is used as-is, and a where-type produced by a previous
synthesize call (here Membership's) is also passed through unchanged. -/
theorem C4_witness :
    createCustomInput "Group_memberships"
      (TypeObj.annotated "MembershipInputWhereFilter") initState =
      (TypeObj.annotated "MembershipInputWhereFilter", initState) ∧
    createCustomInput "Group_memberships"
      (createInputsFull "MembershipInputWhereFilter"
        [("valid", TypeObj.scalar "bool")] initState).whereOp
      (createInputsFull "MembershipInputWhereFilter"
        [("valid", TypeObj.scalar "bool")] initState).state =
      ((createInputsFull "MembershipInputWhereFilter"
        [("valid", TypeObj.scalar "bool")] initState).whereOp,
       (createInputsFull "MembershipInputWhereFilter"
        [("valid", TypeObj.scalar "bool")] initState).state) :=
  ⟨(C4_holds initState "Group_memberships" "MembershipInputWhereFilter").1 (by decide),
   (C4_holds (createInputsFull "MembershipInputWhereFilter"
      [("valid", TypeObj.scalar "bool")] initState).state
      "Group_memberships" "").2
      (createInputsFull "MembershipInputWhereFilter"
        [("valid", TypeObj.scalar "bool")] initState).whereOp (by decide)⟩

/-- Claim C5, counterexample: two entities with a float field each get a
newly created operator type, registered under the names EntityG_x and
EntityH_y derived from the entity and field names; the two types are for
the same scalar kind yet carry different names, so operator-type names are
not keyed by scalar kind. -/
theorem C5_counterexample :
    (createInputsFull "EntityG" [("x", TypeObj.scalar "float")] initState).inputTypes.map
      TypeObj.pyName = ["EntityG_x"] ∧
    (createInputsFull "EntityH" [("y", TypeObj.scalar "float")]
      (createInputsFull "EntityG" [("x", TypeObj.scalar "float")] initState).state).inputTypes.map
      TypeObj.pyName = ["EntityH_y"] ∧
    alookup (createInputsFull "EntityH" [("y", TypeObj.scalar "float")]
      (createInputsFull "EntityG" [("x", TypeObj.scalar "float")] initState).state).state.registry
      "EntityG_x" = some (TypeObj.cls 5 "EntityG_x") ∧
    alookup (createInputsFull "EntityH" [("y", TypeObj.scalar "float")]
      (createInputsFull "EntityG" [("x", TypeObj.scalar "float")] initState).state).state.registry
      "EntityH_y" = some (TypeObj.cls 9 "EntityH_y") := by decide

/-- Claim C5, amended: every createInputs run registers the where-, and- and
or-types in the module-level named-type registry under the names Entity,
Entity_and and Entity_or (provided no per-field input type carries one of
those three names), registers every per-field input type under its own
__name__ (a newly created operator type is named Entity_field, not keyed by
scalar kind), and returns the where-type. -/
theorem C5_amended (clsname : String) (fields : List (String × TypeObj))
    (s : SynthState)
    (h : ∀ t ∈ (createInputsFull clsname fields s).inputTypes,
        t.pyName ≠ clsname ∧ t.pyName ≠ clsname ++ "_and" ∧
        t.pyName ≠ clsname ++ "_or") :
    alookup (createInputsFull clsname fields s).state.registry clsname =
      some (createInputsFull clsname fields s).whereOp ∧
    alookup (createInputsFull clsname fields s).state.registry (clsname ++ "_and") =
      some (createInputsFull clsname fields s).andOp ∧
    alookup (createInputsFull clsname fields s).state.registry (clsname ++ "_or") =
      some (createInputsFull clsname fields s).orOp ∧
    ((createInputsFull clsname fields s).whereOp).pyName = clsname ∧
    ((createInputsFull clsname fields s).andOp).pyName = clsname ++ "_and" ∧
    ((createInputsFull clsname fields s).orOp).pyName = clsname ++ "_or" ∧
    (createInputs clsname fields s).1 = (createInputsFull clsname fields s).whereOp := by
  refine ⟨registryWhereLookup clsname fields s (fun t ht => (h t ht).1),
    registryAndLookup clsname fields s (fun t ht => (h t ht).2.1),
    registryOrLookup clsname fields s (fun t ht => (h t ht).2.2),
    rfl, rfl, rfl, rfl⟩

/-- Claim C5, witness: the Group entity registration from the initial state. -/
theorem C5_amended_witness :
    alookup (createInputsFull "Group" [("name", TypeObj.scalar "str"),
      ("valid", TypeObj.scalar "bool")] initState).state.registry "Group" =
      some (createInputsFull "Group" [("name", TypeObj.scalar "str"),
        ("valid", TypeObj.scalar "bool")] initState).whereOp :=
  (C5_amended "Group" [("name", TypeObj.scalar "str"), ("valid", TypeObj.scalar "bool")]
    initState (by decide)).1

/-- Claim C6, counterexample: the kind float has no operator mapping in the
initial state and is not an Annotated reference, yet synthesis does not
fail: createCustomInput constructs and returns a generic operator type with
the five comparison slots. There is no UnsupportedScalarKind error path in
the code. -/
theorem C6_counterexample :
    alookup initState.mapper (TypeObj.scalar "float") = none ∧
    (TypeObj.scalar "float").pyName ≠ "Annotated" ∧
    (createCustomInput "EntityK_x" (TypeObj.scalar "float") initState).1 =
      TypeObj.cls 5 "EntityK_x" ∧
    ((createCustomInput "EntityK_x" (TypeObj.scalar "float") initState).2).classes.head? =
      some (5, fiveOps (TypeObj.scalar "float")) := by decide

/-- Claim C6, amended: a field kind with no operator mapping that is not an
Annotated reference never makes synthesis fail; the engine silently
constructs a fresh generic operator type with the five comparison slots and
uses it. -/
theorem C6_amended (s : SynthState) (n nm : String)
    (h1 : alookup s.mapper (TypeObj.scalar nm) = none) (h2 : nm ≠ "Annotated") :
    (createCustomInput n (TypeObj.scalar nm) s).1 = TypeObj.cls s.nextId n ∧
    ((createCustomInput n (TypeObj.scalar nm) s).2).classes.head? =
      some (s.nextId, fiveOps (TypeObj.scalar nm)) := by
  constructor <;> simp [createCustomInput, h1, TypeObj.pyName, h2]

/-- Claim C6, witness: instantiated at the initial state and the unmapped
kind float. -/
theorem C6_amended_witness :
    (createCustomInput "EntityL_x" (TypeObj.scalar "float") initState).1 =
      TypeObj.cls 5 "EntityL_x" :=
  (C6_amended initState "EntityL_x" "float" (by decide) (by decide)).1

/-- Claim C7, counterexample: two entities both named Dup with structurally
different fields synthesize one after the other; no error is raised and the
registry entry Dup is silently overwritten by the second where-type. -/
theorem C7_counterexample :
    alookup (createInputsFull "Dup" [("x", TypeObj.scalar "str")]
      initState).state.registry "Dup" =
      some (createInputsFull "Dup" [("x", TypeObj.scalar "str")] initState).whereOp ∧
    alookup (createInputsFull "Dup" [("y", TypeObj.scalar "int")]
      (createInputsFull "Dup" [("x", TypeObj.scalar "str")] initState).state).state.registry
      "Dup" =
      some (createInputsFull "Dup" [("y", TypeObj.scalar "int")]
        (createInputsFull "Dup" [("x", TypeObj.scalar "str")] initState).state).whereOp ∧
    (createInputsFull "Dup" [("x", TypeObj.scalar "str")] initState).whereOp ≠
      (createInputsFull "Dup" [("y", TypeObj.scalar "int")]
        (createInputsFull "Dup" [("x", TypeObj.scalar "str")] initState).state).whereOp := by
  decide

/-- Claim C7, amended: registering a type whose name already exists in the
registry raises no DuplicateTypeName error; the synthesize run silently
overwrites the entry, leaving the name bound to the freshly generated
where-type, which differs from the previously stored value. -/
theorem C7_amended (clsname : String) (fields : List (String × TypeObj))
    (s : SynthState) (told : TypeObj) (hw : regWF s = true)
    (hold : alookup s.registry clsname = some told)
    (h : ∀ t ∈ (createInputsFull clsname fields s).inputTypes,
        t.pyName ≠ clsname) :
    alookup (createInputsFull clsname fields s).state.registry clsname =
      some (createInputsFull clsname fields s).whereOp ∧
    (createInputsFull clsname fields s).whereOp ≠ told := by
  refine ⟨registryWhereLookup clsname fields s h, ?_⟩
  have hmem := alookup_mem _ _ _ hold
  have hok : regValOK s.nextId told = true := List.all_eq_true.mp hw _ hmem
  have hle : s.nextId ≤ ((createAllInputs clsname fields s).2).nextId :=
    createAllInputs_nextId _ _ _
  rw [createInputsFull_whereOp]
  cases told with
  | scalar n => simp
  | annotated r => simp
  | cls i nm =>
    simp only [regValOK, decide_eq_true_eq] at hok
    simp only [ne_eq, TypeObj.cls.injEq, not_and]
    intro hi
    omega

/-- Claim C7, witness: a second synthesize run named Dup overwrites the
first run's registration. -/
theorem C7_amended_witness :
    alookup (createInputsFull "Dup" [("y", TypeObj.scalar "int")]
      (createInputsFull "Dup" [("x", TypeObj.scalar "str")] initState).state).state.registry
      "Dup" =
      some (createInputsFull "Dup" [("y", TypeObj.scalar "int")]
        (createInputsFull "Dup" [("x", TypeObj.scalar "str")] initState).state).whereOp ∧
    (createInputsFull "Dup" [("y", TypeObj.scalar "int")]
      (createInputsFull "Dup" [("x", TypeObj.scalar "str")] initState).state).whereOp ≠
      (createInputsFull "Dup" [("x", TypeObj.scalar "str")] initState).whereOp :=
  C7_amended "Dup" [("y", TypeObj.scalar "int")]
    (createInputsFull "Dup" [("x", TypeObj.scalar "str")] initState).state
    (createInputsFull "Dup" [("x", TypeObj.scalar "str")] initState).whereOp
    (by decide) (by decide) (by decide)

/-- Claim C8: synthesizing an entity with zero declared fields does not
fail; the where-type exposes exactly the _or and _and combinators (and the
or- and and-types exactly their single combinator). -/
theorem C8_holds (clsname : String) (s : SynthState) :
    (createInputsFull clsname [] s).inputTypes = [] ∧
    (createInputsFull clsname [] s).whereAnns =
      [("_or", Ann.optList (createInputsFull clsname [] s).orOp),
       ("_and", Ann.optList (createInputsFull clsname [] s).andOp)] ∧
    (createInputsFull clsname [] s).whereAnns.map Prod.fst = ["_or", "_and"] ∧
    (createInputsFull clsname [] s).orAnns.map Prod.fst = ["_and"] ∧
    (createInputsFull clsname [] s).andAnns.map Prod.fst = ["_or"] :=
  ⟨rfl, rfl, rfl, rfl, rfl⟩

/-! ### Mutation handlers (resolver layer)

Each handler receives the loader outcome for its insert / update call as an
Option of the affected database row (None models the loader's not-found
result). Python attribute access on None raises AttributeError; this is
modelled with the Except monad. Ids are modelled as Nat. -/

/-- A database row as returned by the loader; only the id attribute matters
for the result envelopes. -/
structure DBRow where
  id : Nat
deriving DecidableEq, Repr

/-- The Python exception raised by attribute access on None. -/
inductive PyExc where
  | attributeErrorNone
deriving DecidableEq, Repr

/-- The {id, msg} result envelope common to all mutation result models
(GroupResultGQLModel, GroupTypeResultGQLModel, UserResultGQLModel,
MembershipResultGQLModel, RoleCategoryResultGQLModel): both fields default
to None and are filled by the handler. -/
structure ResultEnvelope where
  id : Option Nat
  msg : Option String
deriving DecidableEq, Repr

/-- Python attribute access row.id on a possibly-None loader result. -/
def rowIdAttr : Option DBRow → Except PyExc Nat
  | none => .error .attributeErrorNone
  | some r => .ok r.id

/-- group_update (groupGQLModel.py lines 220-228): on a None update result
return the envelope (group.id, "fail"), otherwise (group.id, "ok"). -/
def group_update (inputId : Nat) (updatedrow : Option DBRow) :
    Except PyExc ResultEnvelope :=
  match updatedrow with
  | none => .ok { id := some inputId, msg := some "fail" }
  | some _ => .ok { id := some inputId, msg := some "ok" }

/-- group_insert (groupGQLModel.py lines 234-246): the print on line 238
dereferences updatedrow.id and updatedrow.name before any None check; then
result.id is set from updatedrow.id and msg to "ok"; the subsequent None
check would set "fail" but is unreachable when the row is None. -/
def group_insert (updatedrow : Option DBRow) : Except PyExc ResultEnvelope := do
  let _ ← rowIdAttr updatedrow
  let rid ← rowIdAttr updatedrow
  let msg := if updatedrow = none then "fail" else "ok"
  return { id := some rid, msg := some msg }

/-- group_type_update (groupTypeGQLModel.py lines 127-137): id from the
input, msg "ok" overwritten to "fail" when the loader returned None. -/
def group_type_update (inputId : Nat) (updatedrow : Option DBRow) :
    Except PyExc ResultEnvelope :=
  .ok { id := some inputId, msg := some (if updatedrow = none then "fail" else "ok") }

/-- group_type_insert (groupTypeGQLModel.py lines 143-154): result.id is set
from updatedrow.id before the None check on line 151, so a None insert
result raises instead of reaching the "fail" branch. -/
def group_type_insert (updatedrow : Option DBRow) : Except PyExc ResultEnvelope := do
  let rid ← rowIdAttr updatedrow
  let msg := if updatedrow = none then "fail" else "ok"
  return { id := some rid, msg := some msg }

/-- user_update (userGQLModel.py lines 223-238): id from the input, msg
"fail" when the loader returned None, otherwise "ok". -/
def user_update (inputId : Nat) (updatedrow : Option DBRow) :
    Except PyExc ResultEnvelope :=
  .ok { id := some inputId, msg := some (if updatedrow = none then "fail" else "ok") }

/-- user_insert (userGQLModel.py lines 241-250): result.id is read from
row.id with no None check at all; msg is always "ok". -/
def user_insert (row : Option DBRow) : Except PyExc ResultEnvelope := do
  let rid ← rowIdAttr row
  return { id := some rid, msg := some "ok" }

/-- membership_update (membershipGQLModel.py lines 135-150): msg "ok", id
from the input, msg overwritten to "fail" when the loader returned None. -/
def membership_update (inputId : Nat) (updatedrow : Option DBRow) :
    Except PyExc ResultEnvelope :=
  .ok { id := some inputId, msg := some (if updatedrow = none then "fail" else "ok") }

/-- membership_insert (membershipGQLModel.py lines 154-166): result.id is
read from row.id with no None check; msg is always "ok". -/
def membership_insert (row : Option DBRow) : Except PyExc ResultEnvelope := do
  let rid ← rowIdAttr row
  return { id := some rid, msg := some "ok" }

/-- role_category_update (roleCategoryGQLModel.py lines 110-128): msg "ok"
and id from the input; when the loader returned None msg becomes "fail",
otherwise id is replaced by row.id. -/
def role_category_update (inputId : Nat) (row : Option DBRow) :
    Except PyExc ResultEnvelope :=
  match row with
  | none => .ok { id := some inputId, msg := some "fail" }
  | some r => .ok { id := some r.id, msg := some "ok" }

/-- role_category_insert (roleCategoryGQLModel.py lines 132-145): result.id
is read from row.id with no None check; msg is always "ok". -/
def role_category_insert (row : Option DBRow) : Except PyExc ResultEnvelope := do
  let rid ← rowIdAttr row
  return { id := some rid, msg := some "ok" }

/-- Claim C9: the update handlers do return the {id, msg} envelope with
"fail" on a None loader result and "ok" on a returned row, but every insert
handler dereferences the row id before (or without) its None check: on a
None insert result group_insert, group_type_insert, user_insert,
membership_insert and role_category_insert raise AttributeError instead of
returning an envelope with msg "fail". The dead None branches in
group_insert and group_type_insert show the "fail" envelope was the intent. -/
theorem C9_holds :
    group_type_insert none = .error .attributeErrorNone ∧
    group_insert none = .error .attributeErrorNone ∧
    user_insert none = .error .attributeErrorNone ∧
    membership_insert none = .error .attributeErrorNone ∧
    role_category_insert none = .error .attributeErrorNone ∧
    group_insert (some ⟨3⟩) = .ok { id := some 3, msg := some "ok" } ∧
    group_type_insert (some ⟨3⟩) = .ok { id := some 3, msg := some "ok" } ∧
    user_insert (some ⟨3⟩) = .ok { id := some 3, msg := some "ok" } ∧
    membership_insert (some ⟨3⟩) = .ok { id := some 3, msg := some "ok" } ∧
    role_category_insert (some ⟨3⟩) = .ok { id := some 3, msg := some "ok" } ∧
    group_update 7 none = .ok { id := some 7, msg := some "fail" } ∧
    group_update 7 (some ⟨7⟩) = .ok { id := some 7, msg := some "ok" } ∧
    group_type_update 7 none = .ok { id := some 7, msg := some "fail" } ∧
    group_type_update 7 (some ⟨7⟩) = .ok { id := some 7, msg := some "ok" } ∧
    user_update 7 none = .ok { id := some 7, msg := some "fail" } ∧
    user_update 7 (some ⟨7⟩) = .ok { id := some 7, msg := some "ok" } ∧
    membership_update 7 none = .ok { id := some 7, msg := some "fail" } ∧
    membership_update 7 (some ⟨7⟩) = .ok { id := some 7, msg := some "ok" } ∧
    role_category_update 7 none = .ok { id := some 7, msg := some "fail" } ∧
    role_category_update 7 (some ⟨9⟩) = .ok { id := some 9, msg := some "ok" } :=
  ⟨rfl, rfl, rfl, rfl, rfl, rfl, rfl, rfl, rfl, rfl, rfl, rfl, rfl, rfl, rfl,
   rfl, rfl, rfl, rfl, rfl⟩

/-! ### BaseGQLModel.resolve_reference -/

/-- The id argument of resolve_reference when present: either a string (to
be parsed into a UUID first) or an already-parsed UUID value, modelled as
Nat. -/
inductive PyId where
  | pstr (s : String)
  | puuid (u : Nat)
deriving DecidableEq, Repr

/-- An entity row as returned by the loader, carrying its id and the
strawberry definition attribute that resolve_reference overwrites. -/
structure Entity where
  id : Nat
  strawberry_definition : Option String
deriving DecidableEq, Repr

/-- BaseGQLModel.resolve_reference (BaseGQLModel.py lines 17-26): return
None immediately when id is None (before touching the loader); otherwise
parse a string id into a UUID, call loader.load once with the UUID, stamp
the class strawberry definition onto a non-None result, and return the
loader's result. The second component counts loader.load invocations. -/
def resolve_reference (clsDef : String) (parse : String → Nat)
    (load : Nat → Option Entity) (idv : Option PyId) : Option Entity × Nat :=
  match idv with
  | none => (none, 0)
  | some i =>
      let u := match i with
               | .pstr s => parse s
               | .puuid u => u
      match load u with
      | none => (none, 1)
      | some r => (some { r with strawberry_definition := some clsDef }, 1)

/-- Claim C10: with a None id, resolve_reference returns None and never
invokes the loader; with a present id it invokes the loader exactly once,
with the parsed UUID when the id is a string, and returns the loader's
result (None for not-found, otherwise the loaded entity, whose identity is
preserved). -/
theorem C10_holds (clsDef : String) (parse : String → Nat)
    (load : Nat → Option Entity) :
    resolve_reference clsDef parse load none = (none, 0) ∧
    (∀ s, (resolve_reference clsDef parse load (some (.pstr s))).2 = 1 ∧
      ((resolve_reference clsDef parse load (some (.pstr s))).1).map Entity.id =
        (load (parse s)).map Entity.id ∧
      ((resolve_reference clsDef parse load (some (.pstr s))).1).isNone =
        (load (parse s)).isNone) ∧
    (∀ u, (resolve_reference clsDef parse load (some (.puuid u))).2 = 1 ∧
      ((resolve_reference clsDef parse load (some (.puuid u))).1).map Entity.id =
        (load u).map Entity.id ∧
      ((resolve_reference clsDef parse load (some (.puuid u))).1).isNone =
        (load u).isNone) := by
  refine ⟨rfl, fun s => ?_, fun u => ?_⟩
  · rcases h : load (parse s) with _ | r <;> simp [resolve_reference, h]
  · rcases h : load u with _ | r <;> simp [resolve_reference, h]

end GqlUg
